import Mathlib

/-!
Verification of the `trajlapse` camera-rig program.

The Python sources are shallowly embedded here:
pure float arithmetic is modelled over `ℝ` (for logarithms) or `ℚ`
(where the computation is exact rational arithmetic), Python lists
become `List`, dictionaries become association lists keyed by `String`,
and stateful methods become explicit functions on a state record.
External-library calls (numpy/scipy smoothing filters, hardware
register reads) enter as function parameters, never as stubs of
repository code.
-/

namespace Trajlapse

/-! ## Lens model (`trajlapse/exposure.py`)

`Exposure.calc_EV(speed, gain=None, iso=100)` computes
`log(aperture**2 * speed / (gain*gain4iso100), 2.0)`, resolving
`gain = iso/100` when `gain is None`.
`Exposure.calc_speed(ev)` computes `pow(2.0, ev) * gain4iso100 / aperture**2`.
Real-number exponentials are `Real.rpow`; `log(x, 2.0)` is `Real.logb 2 x`.
-/

structure Exposure where
  focal : ℝ
  aperture : ℝ
  gain4iso100 : ℝ

noncomputable def Exposure.calc_EV (e : Exposure) (speed : ℝ)
    (gain : Option ℝ) (iso : ℝ) : ℝ :=
  let g := gain.getD (iso / 100)
  Real.logb 2 (e.aperture ^ 2 * speed / (g * e.gain4iso100))

noncomputable def Exposure.calc_speed (e : Exposure) (ev : ℝ) : ℝ :=
  (2 : ℝ) ^ ev * e.gain4iso100 / e.aperture ^ 2

/-- The module-level canonical lens: `Exposure(focal=6.0, aperture=2.0, gain4iso100=2.317)`. -/
noncomputable def lens : Exposure := ⟨6, 2, 2.317⟩

/-- The round trip holds for every real exposure value, not only 0..20. -/
theorem lens_calc_EV_calc_speed (ev : ℝ) :
    lens.calc_EV (lens.calc_speed ev) none 100 = ev := by
  have h : lens.aperture ^ 2 * lens.calc_speed ev /
      ((100 / 100 : ℝ) * lens.gain4iso100) = (2 : ℝ) ^ ev := by
    show (2 : ℝ) ^ 2 * ((2 : ℝ) ^ ev * 2.317 / (2 : ℝ) ^ 2) /
        ((100 / 100 : ℝ) * 2.317) = (2 : ℝ) ^ ev
    norm_num
    field_simp
    ring
  show Real.logb 2 (lens.aperture ^ 2 * lens.calc_speed ev /
      ((100 / 100 : ℝ) * lens.gain4iso100)) = ev
  rw [h]
  exact Real.logb_rpow (by norm_num) (by norm_num)

/-- C1: for the canonical lens (`focal=6.0, aperture=2.0, gain4iso100=2.317`)
and every exposure value `ev` in `0..20`, `calc_EV(calc_speed(ev))` with the
defaults `gain=None`, `iso=100` gives back exactly `ev` (the identity is exact
over the reals, hence holds within floating-point tolerance). -/
theorem calc_EV_calc_speed_roundtrip (ev : ℕ) (h : ev ≤ 20) :
    lens.calc_EV (lens.calc_speed ev) none 100 = ev :=
  lens_calc_EV_calc_speed (ev : ℝ)

/-- C1 witness: instance of the round trip at `ev = 7`. -/
theorem calc_EV_calc_speed_roundtrip_witness :
    lens.calc_EV (lens.calc_speed 7) none 100 = 7 := by
  have := calc_EV_calc_speed_roundtrip 7 (by norm_num)
  simpa using this

/-! ## Trajectory interpolation (`trajlapse.py`)

`Position` is the namedtuple from `trajlapse/positioner.py`; all pan/tilt
arithmetic in `Trajectory.calc_pos` is exact on the inputs of the claims,
so it is modelled over `ℚ`.  A waypoint is one dict of the `trajectory`
list; `pan`/`tilt` are read with `point.get(key, 0)`-style defaults 0 in
the code, and `move`/`stay` are read without default.
-/

structure Position where
  pan : ℚ
  tilt : ℚ
deriving DecidableEq, Repr

structure Waypoint where
  pan : ℚ
  tilt : ℚ
  move : ℚ
  stay : ℚ
deriving DecidableEq, Repr

/-- The `for point in self.config: ... else: ...` loop of `calc_pos`.
Arguments track the Python locals `next_pos`, `last_pos`,
`last_timestamp` and `remaining` at the top of each iteration; the
`[]` case is the `for`-`else` branch (`return next_pos`), the `remaining < 0`
case after subtracting `move` is the `break` followed by the linear
interpolation code after the loop, and the `remaining < 0` case after
subtracting `stay` is the early `return next_pos`. -/
def calcPosLoop (next_pos last_pos : Position)
    (last_timestamp remaining : ℚ) : List Waypoint → Position
  | [] => next_pos
  | point :: rest =>
    let np : Position := ⟨point.pan, point.tilt⟩
    let r1 := remaining - point.move
    if r1 < 0 then
      let delta := last_timestamp - r1
      let delta_p := np.pan - last_pos.pan
      let delta_t := np.tilt - last_pos.tilt
      let adv := last_timestamp / delta
      ⟨last_pos.pan + adv * delta_p, last_pos.tilt + adv * delta_t⟩
    else
      let r2 := r1 - point.stay
      if r2 < 0 then np
      else calcPosLoop np np r2 r2 rest

/-- Model of `Trajectory.calc_pos(when)` for a trajectory whose `default_pos` was set
at construction to `calc_pos(-1)`.  `none` models the `IndexError` that
`self.config[0]` raises on an empty trajectory for `when < 0`. -/
def calc_pos (config : List Waypoint) (wh : ℚ) : Option Position :=
  if wh < 0 then
    (config.head?).map fun point => ⟨point.pan, point.tilt⟩
  else
    (config.head?).map fun point =>
      let default_pos : Position := ⟨point.pan, point.tilt⟩
      if wh ≤ 0 then default_pos
      else calcPosLoop default_pos default_pos wh wh config

/-- The two-waypoint trajectory of the claim:
`[{pan:0,tilt:0,move:10,stay:0},{pan:100,tilt:0,move:10,stay:5}]`. -/
def twoPointConfig : List Waypoint :=
  [⟨0, 0, 10, 0⟩, ⟨100, 0, 10, 5⟩]

/-- C2 counterexample: on the two-waypoint trajectory, `calc_pos(5)` does not
give `pan ≈ 50`: at `t = 5` the rig is still in the 10-second travel to the
FIRST waypoint (whose own `move` is consumed before the second waypoint's),
so the result is `Position(0, 0)`. -/
theorem calc_pos_five_not_fifty :
    calc_pos twoPointConfig 5 = some ⟨0, 0⟩ ∧
      (calc_pos twoPointConfig 5).map Position.pan ≠ some 50 := by
  constructor <;> norm_num [calc_pos, calcPosLoop, twoPointConfig]

/-- C2 (amended): on the two-waypoint trajectory
`[{pan:0,tilt:0,move:10,stay:0},{pan:100,tilt:0,move:10,stay:5}]`, the travel
to the second waypoint spans `t ∈ [10, 20]`, and halfway through it,
`calc_pos(15)` yields `pan = 50` (linear interpolation). -/
theorem calc_pos_halfway_second_leg :
    calc_pos twoPointConfig 15 = some ⟨50, 0⟩ := by
  norm_num [calc_pos, calcPosLoop, twoPointConfig]

/-- The default embedded trajectory of `trajlapse.py`: three waypoints at
constant tilt 30, pan cycling −50 → 70 → −50, with `move` 10, 21000, 1000
and `stay` 10 each. -/
def defaultConfig : List Waypoint :=
  [⟨-50, 30, 10, 10⟩, ⟨70, 30, 21000, 10⟩, ⟨-50, 30, 1000, 10⟩]

/-- Model of `Trajectory.duration` = `sum(stay + move)` over the config. -/
def duration (config : List Waypoint) : ℚ :=
  (config.map fun point => point.stay + point.move).sum

theorem defaultConfig_duration : duration defaultConfig = 22040 := by
  norm_num [duration, defaultConfig]

/-- After the last waypoint is exhausted the `for`-`else` branch returns the
final waypoint's position, whatever remains of the timestamp. -/
theorem calcPosLoop_defaultConfig_late (t : ℚ) (h : 22040 ≤ t) :
    calcPosLoop ⟨-50, 30⟩ ⟨-50, 30⟩ t t defaultConfig = ⟨-50, 30⟩ := by
  simp only [defaultConfig, calcPosLoop]
  norm_num
  intro _ _
  rw [if_neg (by linarith), if_neg (by linarith), if_neg (by linarith)]

/-- C8: for the default embedded trajectory, `calc_pos(-1) = Position(-50,30)`,
`calc_pos(0)` equals the same pre-start position, and for every
`t ≥ duration = 22040` (in particular `t = duration + 1000`)
`calc_pos(t) = Position(-50, 30)`: the rig holds indefinitely at the final
waypoint once all waypoints are exhausted. -/
theorem calc_pos_default_boundary :
    calc_pos defaultConfig (-1) = some ⟨-50, 30⟩ ∧
      calc_pos defaultConfig 0 = some ⟨-50, 30⟩ ∧
      ∀ t : ℚ, duration defaultConfig ≤ t →
        calc_pos defaultConfig t = some ⟨-50, 30⟩ := by
  refine ⟨by norm_num [calc_pos, defaultConfig], by norm_num [calc_pos, defaultConfig],
    fun t ht => ?_⟩
  rw [defaultConfig_duration] at ht
  unfold calc_pos
  rw [if_neg (by linarith)]
  simp only [defaultConfig, List.head?, Option.map]
  rw [if_neg (by linarith)]
  exact congrArg some (calcPosLoop_defaultConfig_late t ht)

/-- C8 witness: the boundary theorem applied at `t = duration + 1000 = 23040`. -/
theorem calc_pos_default_boundary_witness :
    calc_pos defaultConfig 23040 = some ⟨-50, 30⟩ :=
  calc_pos_default_boundary.2.2 23040 (by norm_num [duration, defaultConfig])

/-! ## Camera state (`trajlapse/camera.py`)

The mutable attributes of `Camera` (and of its `PiCamera` registers) that
the verified methods read or write.  Rolling histories hold float samples
whose values are exact rationals, hence `List ℚ`; the AWB gains written by
`update_expo` come from the real-valued smoothing filters, hence `ℝ × ℝ`.
-/

structure CamState where
  resolution : ℕ × ℕ
  framerate : ℚ
  sensor_mode : ℕ
  avg_ev : ℕ
  avg_wb : ℕ
  histo_ev : List ℚ
  wb_red : List ℚ
  wb_blue : List ℚ
  folder : String
  iso : ℤ
  awb_gains : ℝ × ℝ
  shutter_speed : ℤ
  exposure_mode : String

/-- A value stored in the config dictionary exchanged by
`Camera.get_config`/`Camera.set_config`. -/
inductive ConfigVal
  | res (r : ℕ × ℕ)
  | rat (q : ℚ)
  | nat (n : ℕ)
  | qlist (l : List ℚ)
  | str (s : String)
deriving DecidableEq

/-- Model of `Camera.get_config`: the `OrderedDict` it builds, in source order.  Note
the key of the EV history is the literal `"hist_ev"` in the source. -/
def get_config (s : CamState) : List (String × ConfigVal) :=
  [("resolution", .res s.resolution),
   ("framerate", .rat s.framerate),
   ("sensor_mode", .nat s.sensor_mode),
   ("avg_ev", .nat s.avg_ev),
   ("avg_wb", .nat s.avg_wb),
   ("hist_ev", .qlist s.histo_ev),
   ("wb_red", .qlist s.wb_red),
   ("wb_blue", .qlist s.wb_blue),
   ("folder", .str s.folder)]

/-- Python `dico.get(key, default)` when the stored value is a resolution. -/
def dictRes (d : List (String × ConfigVal)) (key : String) (dflt : ℕ × ℕ) : ℕ × ℕ :=
  match d.lookup key with
  | some (.res v) => v
  | _ => dflt

/-- Python `dico.get(key, default)` when the stored value is a rational scalar. -/
def dictRat (d : List (String × ConfigVal)) (key : String) (dflt : ℚ) : ℚ :=
  match d.lookup key with
  | some (.rat v) => v
  | _ => dflt

/-- Python `dico.get(key, default)` when the stored value is a natural number. -/
def dictNat (d : List (String × ConfigVal)) (key : String) (dflt : ℕ) : ℕ :=
  match d.lookup key with
  | some (.nat v) => v
  | _ => dflt

/-- Python `dico.get(key, default)` when the stored value is a list of samples. -/
def dictQlist (d : List (String × ConfigVal)) (key : String) (dflt : List ℚ) : List ℚ :=
  match d.lookup key with
  | some (.qlist v) => v
  | _ => dflt

/-- Python `dico.get(key, default)` when the stored value is a string. -/
def dictStr (d : List (String × ConfigVal)) (key : String) (dflt : String) : String :=
  match d.lookup key with
  | some (.str v) => v
  | _ => dflt

/-- Model of `Camera.set_config(dico)`: each field is `dico.get(key, current)`; the EV
history is looked up under the key `"histo_ev"`.  The trailing
`setup_analyzer_pool()` call only restarts worker processes and touches no
field modelled here. -/
def set_config (dico : List (String × ConfigVal)) (s : CamState) : CamState :=
  { s with
    resolution := dictRes dico "resolution" s.resolution,
    framerate := dictRat dico "framerate" s.framerate,
    sensor_mode := dictNat dico "sensor_mode" s.sensor_mode,
    wb_red := dictQlist dico "wb_red" s.wb_red,
    wb_blue := dictQlist dico "wb_blue" s.wb_blue,
    histo_ev := dictQlist dico "histo_ev" s.histo_ev,
    avg_ev := dictNat dico "avg_ev" s.avg_ev,
    avg_wb := dictNat dico "avg_wb" s.avg_wb,
    folder := dictStr dico "folder" s.folder }

/-- C3: importing an exported configuration restores every `CameraConfig`
field EXCEPT the EV history: `get_config` exports it under the key
`"hist_ev"` while `set_config` looks it up under `"histo_ev"`, so the
importing camera silently keeps its own `histo_ev` and the exported rolling
history is dropped. -/
theorem set_config_get_config_drops_histo_ev (s t : CamState) :
    set_config (get_config s) t =
      { t with
        resolution := s.resolution,
        framerate := s.framerate,
        sensor_mode := s.sensor_mode,
        wb_red := s.wb_red,
        wb_blue := s.wb_blue,
        histo_ev := t.histo_ev,
        avg_ev := s.avg_ev,
        avg_wb := s.avg_wb,
        folder := s.folder } := by
  simp [set_config, get_config, dictRes, dictRat, dictNat, dictQlist, dictStr,
    List.lookup]

/-! ## Calculated ISO (`Camera.get_metadata`, `trajlapse/camera.py`)

The source sets `metadata['iso_calc']` with

```
if revision == "imx219": iso_calc = 54.35 * analog_gain * digital_gain
if revision == "imx477": iso_calc = 43.16 * analog_gain * digital_gain
else:                    iso_calc = 100.0 * analog_gain * digital_gain
```

The second statement is `if`/`else`, not `elif`, so its `else` branch
re-assigns the key whenever the revision is not `"imx477"` — including for
`"imx219"`, whose assignment is dead.
-/

def camera_iso_calc (revision : String) (analog_gain digital_gain : ℚ) : ℚ :=
  let first : Option ℚ :=
    if revision = "imx219" then some (54.35 * analog_gain * digital_gain) else none
  let second : Option ℚ :=
    if revision = "imx477" then some (43.16 * analog_gain * digital_gain)
    else some (100.0 * analog_gain * digital_gain)
  ((second <|> first).getD 0)

/-- C4: the code disagrees with the claim for `imx219`: at unit gains the
calculated ISO is 100.0 (the `imx219` assignment is overwritten by the
`else` of the `imx477` check), not 54.35; the `imx477` and default cases
match the claim. -/
theorem camera_iso_calc_imx219_overwritten :
    camera_iso_calc "imx219" 1 1 = 100 ∧
      camera_iso_calc "imx219" 1 1 ≠ 54.35 ∧
      camera_iso_calc "imx477" 1 1 = 43.16 ∧
      camera_iso_calc "ov5647" 1 1 = 100 := by
  norm_num [camera_iso_calc]
  refine ⟨?_, ?_, ?_⟩ <;>
    rw [if_neg (by decide)] <;> norm_num

/-! ## ISO settling (`Camera.change_iso`, `trajlapse/camera.py`)

```
self.camera.iso = iso
last_gain = float(self.camera.analog_gain * self.camera.digital_gain)
time.sleep(2)
gain = float(self.camera.analog_gain * self.camera.digital_gain)
while gain != last_gain:
    last_gain = gain
    time.sleep(1)
```

The loop body never reads the camera again, so the locals are the whole
loop state; the hardware reads are supplied by the oracle `readings`.
-/

/-- The `while gain != last_gain` loop.  Its body only copies `gain` into
`last_gain`, so it runs at most one iteration. -/
def gainSettleLoop (gain last_gain : ℚ) : ℚ × ℚ :=
  if gain = last_gain then (gain, last_gain)
  else gainSettleLoop gain gain
termination_by (if gain = last_gain then 0 else 1 : ℕ)
decreasing_by simp_all

structure ChangeIsoResult where
  samplesRead : ℕ
  gain : ℚ
  last_gain : ℚ
deriving DecidableEq, Repr

/-- The gain-settling part of `Camera.change_iso`: `readings n` is the value
of `analog_gain * digital_gain` at the n-th hardware read.  The loop is not
passed the oracle because its body performs no read, so exactly two samples
are ever taken. -/
def change_iso_settle (readings : ℕ → ℚ) : ChangeIsoResult :=
  let last_gain := readings 0
  let gain := readings 1
  let fin := gainSettleLoop gain last_gain
  ⟨2, fin.1, fin.2⟩

/-- C5: `change_iso` does NOT wait for two consecutive equal polls.  With
hardware gains 1 then 2, the call reads exactly two samples, which differ,
and still returns (the loop body forgot to re-read the gain, so after one
iteration `last_gain = gain` holds vacuously). -/
theorem change_iso_settle_returns_on_differing_samples :
    change_iso_settle (fun n => if n = 0 then 1 else 2) = ⟨2, 2, 2⟩ ∧
      (fun n => if n = 0 then (1 : ℚ) else 2) 0 ≠
        (fun n => if n = 0 then (1 : ℚ) else 2) 1 := by
  constructor
  · rw [change_iso_settle]
    norm_num
    rw [gainSettleLoop]
    norm_num
    rw [gainSettleLoop]
    norm_num
  · norm_num

/-! ## Exposure update (`Camera.update_expo`, `trajlapse/camera.py`)

`update_expo` trims the rolling histories to their averaging windows,
feeds them to the Savitzky-Golay filters, and writes the AWB gains, ISO
and shutter speed back to the camera.  The filters (`savgol0`, `savgol1`)
are scipy/numpy library code, so they enter as function parameters.
-/

/-- Python `lst[-n:]` for a non-negative `n`: the whole list when `n = 0`
(`lst[-0:]` is `lst[0:]`), otherwise the last `n` elements. -/
def pyTail (n : ℕ) (l : List ℚ) : List ℚ :=
  if n = 0 then l else l.drop (l.length - n)

/-- Python `int(x)`: truncation toward zero. -/
noncomputable def pyInt (x : ℝ) : ℤ :=
  if 0 ≤ x then ⌊x⌋ else ⌈x⌉

/-- The state effect of `Camera.change_iso(iso)`: it writes the camera's
exposure mode, writes the new ISO, waits for the gain to settle (the
sampling is analysed separately above) and leaves the exposure mode
`"off"`. -/
def change_iso_state (iso : ℤ) (s : CamState) : CamState :=
  { s with iso := iso, exposure_mode := "off" }

/-- Model of `Camera.update_expo`.  `savGol0`/`savGol1` are the order-0 and order-1
smoothing filters.  If the trailing shutter-speed write divides by zero in
Python (`iso = 0`), the claims below never reach that state, and the model
uses the total real division of Lean. -/
noncomputable def update_expo (savGol0 savGol1 : List ℚ → ℝ) (s : CamState) : CamState :=
  if s.wb_red.length * s.wb_blue.length = 0 then s
  else
    let wb_red := if s.avg_wb < s.wb_red.length then pyTail s.avg_wb s.wb_red else s.wb_red
    let wb_blue := if s.avg_wb < s.wb_red.length then pyTail s.avg_wb s.wb_blue else s.wb_blue
    let histo_ev := if s.avg_ev < s.histo_ev.length then pyTail s.avg_ev s.histo_ev else s.histo_ev
    let awb : ℝ × ℝ := (savGol0 wb_red, savGol0 wb_blue)
    let ev : ℝ := savGol1 histo_ev
    let iso := s.iso
    let speed100 : ℝ := lens.calc_speed ev
    let speed : ℝ := speed100 * (iso : ℝ) / 100
    let framerate : ℝ := (s.framerate : ℝ)
    let new_iso1 : ℤ := if speed < 2.5 * framerate then max 800 (iso * 2) else iso
    let new_iso : ℤ := if 250 * framerate < speed then min 100 (Int.fdiv iso 2) else new_iso1
    let s1 := if new_iso ≠ iso then change_iso_state new_iso s else s
    let speed2 : ℝ := speed100 * (new_iso : ℝ) / 100
    { s1 with
      wb_red := wb_red,
      wb_blue := wb_blue,
      histo_ev := histo_ev,
      awb_gains := awb,
      shutter_speed := pyInt (1000000 / speed2) }

/-- C10: if either WB history is empty, `update_expo` returns at once with
the state untouched: nothing is trimmed, no camera register is written, and
the smoothing filters are never applied to an empty history. -/
theorem update_expo_empty_wb_noop (savGol0 savGol1 : List ℚ → ℝ) (s : CamState)
    (h : s.wb_red = [] ∨ s.wb_blue = []) :
    update_expo savGol0 savGol1 s = s := by
  have hz : s.wb_red.length * s.wb_blue.length = 0 := by
    rcases h with h | h <;> simp [h]
  simp [update_expo, hz]

/-- C10 witness: the no-op at a concrete state with an empty `wb_red`. -/
theorem update_expo_empty_wb_noop_witness :
    update_expo (fun _ => 0) (fun _ => 0)
        ⟨(640, 480), 1, 3, 6, 200, [9, 9], [], [1], "/tmp", 100, (1, 1), 0, "auto"⟩ =
      ⟨(640, 480), 1, 3, 6, 200, [9, 9], [], [1], "/tmp", 100, (1, 1), 0, "auto"⟩ :=
  update_expo_empty_wb_noop _ _ _ (Or.inl rfl)

/-- A state exhibiting both failures of the trim claim: `avg_ev = 0`
(Python `lst[-0:]` keeps everything) and WB histories of unequal length
(the `wb_blue` trim is gated on `len(wb_red)`). -/
def trimCounterState : CamState :=
  ⟨(640, 480), 1, 3, 0, 1, [9], [1], [3/2, 3/2, 3/2], "/tmp", 100, (1, 1), 0, "auto"⟩

/-- C9 counterexample: at `trimCounterState`, `histo_ev` has more than
`avg_ev = 0` samples but the trim leaves 1 value, not exactly `avg_ev`; and
`wb_blue` has 3 > `avg_wb = 1` samples yet is not trimmed at all (the trim
is gated on `len(wb_red) > avg_wb`, which fails). -/
theorem update_expo_trim_counterexample :
    trimCounterState.avg_ev < trimCounterState.histo_ev.length ∧
      (update_expo (fun _ => 0) (fun _ => 0) trimCounterState).histo_ev.length ≠
        trimCounterState.avg_ev ∧
      trimCounterState.avg_wb < trimCounterState.wb_blue.length ∧
      (update_expo (fun _ => 0) (fun _ => 0) trimCounterState).wb_blue =
        trimCounterState.wb_blue := by
  refine ⟨by norm_num [trimCounterState], ?_, by norm_num [trimCounterState], ?_⟩ <;>
    norm_num [update_expo, trimCounterState, pyTail]

/-- C9 (amended): provided the averaging windows are at least 1 and the two
WB histories have equal length (they are appended to in pairs), the trims
behave as claimed: whenever `histo_ev` holds more than `avg_ev` samples the
result is exactly the `avg_ev` most recent samples in their original order,
and likewise both WB histories are trimmed to the `avg_wb` most recent
samples. -/
theorem update_expo_trim (savGol0 savGol1 : List ℚ → ℝ) (s : CamState)
    (hev : 1 ≤ s.avg_ev) (hwb : 1 ≤ s.avg_wb)
    (hlen : s.wb_red.length = s.wb_blue.length) (hne : s.wb_red ≠ []) :
    (s.avg_ev < s.histo_ev.length →
      (update_expo savGol0 savGol1 s).histo_ev =
          s.histo_ev.drop (s.histo_ev.length - s.avg_ev) ∧
        (update_expo savGol0 savGol1 s).histo_ev.length = s.avg_ev) ∧
    (s.avg_wb < s.wb_red.length →
      (update_expo savGol0 savGol1 s).wb_red =
          s.wb_red.drop (s.wb_red.length - s.avg_wb) ∧
        (update_expo savGol0 savGol1 s).wb_blue =
          s.wb_blue.drop (s.wb_blue.length - s.avg_wb) ∧
        (update_expo savGol0 savGol1 s).wb_red.length = s.avg_wb ∧
        (update_expo savGol0 savGol1 s).wb_blue.length = s.avg_wb) := by
  have hr0 : s.wb_red.length ≠ 0 := by simpa [List.length_eq_zero] using hne
  have hz : ¬ s.wb_red.length * s.wb_blue.length = 0 := by
    simp [Nat.mul_eq_zero, hr0, hlen ▸ hr0]
  constructor
  · intro hlt
    have hev0 : s.avg_ev ≠ 0 := by omega
    simp only [update_expo, if_neg hz, if_pos hlt, pyTail, if_neg hev0]
    refine ⟨trivial, ?_⟩
    simp only [List.length_drop]
    omega
  · intro hlt
    have hwb0 : s.avg_wb ≠ 0 := by omega
    simp only [update_expo, if_neg hz, if_pos hlt, pyTail, if_neg hwb0]
    refine ⟨trivial, trivial, ?_, ?_⟩ <;> simp only [List.length_drop] <;> omega

/-- C9 witness: the amended trim theorem at a concrete state with
`avg_ev = avg_wb = 1` and histories of lengths 2, 2, 2. -/
theorem update_expo_trim_witness :
    ((⟨(640, 480), 1, 3, 1, 1, [9, 8], [1, 2], [3, 4], "/tmp", 100, (1, 1), 0,
        "auto"⟩ : CamState).avg_ev <
        (⟨(640, 480), 1, 3, 1, 1, [9, 8], [1, 2], [3, 4], "/tmp", 100, (1, 1), 0,
          "auto"⟩ : CamState).histo_ev.length) ∧
      (update_expo (fun _ => 0) (fun _ => 0)
            ⟨(640, 480), 1, 3, 1, 1, [9, 8], [1, 2], [3, 4], "/tmp", 100, (1, 1), 0,
              "auto"⟩).histo_ev = [8] := by
  refine ⟨by norm_num, ?_⟩
  have h := (update_expo_trim (fun _ => 0) (fun _ => 0)
    ⟨(640, 480), 1, 3, 1, 1, [9, 8], [1, 2], [3, 4], "/tmp", 100, (1, 1), 0, "auto"⟩
    (by norm_num) (by norm_num) (by norm_num) (by simp)).1 (by norm_num)
  simpa using h.1

/-! ## Web-control metadata (`Server.get_metadata`, `stream_tilt_pan.py`)

The method builds a dict literal whose `"speed"` entry is
`1e6/float(self.camera.exposure_speed)`; this expression is evaluated
while the dict is being built, OUTSIDE the later `try`/`except` that only
guards the `Ev` entry.  `Except` models the exception flow of the whole
method; the `Ev` entry is an `Option`, `none` standing for the `"?"`
sentinel installed by the `except` clause.
-/

structure ServerCamera where
  iso : ℚ
  analog_gain : ℚ
  digital_gain : ℚ
  exposure_compensation : ℚ
  exposure_speed : ℚ
  framerate : ℚ
  shutter_speed : ℚ
  awb_gains : List ℚ
  exposure_mode : String
  revision : String
  resolution : ℕ × ℕ

structure ServerMetadata where
  iso : ℚ
  analog_gain : ℚ
  digital_gain : ℚ
  exposure_compensation : ℚ
  exposure_speed : ℚ
  speed : ℚ
  framerate : ℚ
  shutter_speed : ℚ
  awb_gains : List ℚ
  exposure_mode : String
  revision : String
  aperture : ℝ
  focal_length : ℝ
  resolution : ℕ × ℕ
  iso_calc : ℚ
  Ev : Option ℝ

/-- The server's calculated ISO: same `if`/`if`-`else` shape as in
`camera.py` (the `imx219` assignment is dead), with the server's constants
`54.347826086956516` and `40`. -/
def server_iso_calc (revision : String) (analog_gain digital_gain : ℚ) : ℚ :=
  let first : Option ℚ :=
    if revision = "imx219" then some (54.347826086956516 * analog_gain * digital_gain)
    else none
  let second : Option ℚ :=
    if revision = "imx477" then some (40 * analog_gain * digital_gain)
    else some (100.0 * analog_gain * digital_gain)
  ((second <|> first).getD 0)

/-- The `try: metadata['Ev'] = lens.calc_EV(1e6/shutter_speed, dg*ag)`
block: `none` models the `"?"` installed by the bare `except` on a zero
shutter speed (`ZeroDivisionError`), a zero gain (`ZeroDivisionError`
inside `calc_EV`) or a non-positive logarithm argument (`ValueError`). -/
noncomputable def server_Ev (c : ServerCamera) : Option ℝ :=
  if c.shutter_speed = 0 then none
  else
    let speed : ℝ := 1000000 / (c.shutter_speed : ℝ)
    let gain : ℝ := ((c.digital_gain * c.analog_gain : ℚ) : ℝ)
    if gain * lens.gain4iso100 = 0 then none
    else if lens.aperture ^ 2 * speed / (gain * lens.gain4iso100) ≤ 0 then none
    else some (lens.calc_EV speed (some gain) 100)

/-- Model of `Server.get_metadata`: an uncaught `ZeroDivisionError` escapes from the
dict literal when `exposure_speed` is zero, before any entry is produced. -/
noncomputable def server_get_metadata (c : ServerCamera) :
    Except String ServerMetadata :=
  if c.exposure_speed = 0 then .error "ZeroDivisionError"
  else
    .ok
      { iso := c.iso
        analog_gain := c.analog_gain
        awb_gains := c.awb_gains
        digital_gain := c.digital_gain
        exposure_compensation := c.exposure_compensation
        exposure_speed := c.exposure_speed
        speed := 1000000 / c.exposure_speed
        exposure_mode := c.exposure_mode
        framerate := c.framerate
        revision := c.revision
        shutter_speed := c.shutter_speed
        aperture := lens.aperture
        focal_length := lens.focal
        resolution := c.resolution
        iso_calc := server_iso_calc c.revision c.analog_gain c.digital_gain
        Ev := server_Ev c }

/-- C6: when the camera reports `exposure_speed = 0`, `Server.get_metadata`
does NOT report an `"undefined"` sentinel for the derived shutter rate: the
division `1e6/exposure_speed` raises an uncaught `ZeroDivisionError` (only
the `Ev` entry is guarded by `try`/`except`), so the dashboard request
fails instead of rendering. -/
theorem server_get_metadata_zero_exposure_raises (c : ServerCamera)
    (h : c.exposure_speed = 0) :
    server_get_metadata c = .error "ZeroDivisionError" := by
  simp [server_get_metadata, h]

/-- C6 witness: the uncaught division at a concrete camera state with
`exposure_speed = 0`. -/
theorem server_get_metadata_zero_exposure_raises_witness :
    server_get_metadata
        ⟨100, 1, 1, 0, 0, 30, 0, [1, 1], "nightpreview", "imx477", (800, 600)⟩ =
      .error "ZeroDivisionError" :=
  server_get_metadata_zero_exposure_raises _ rfl

/-! ## Lock discipline of `Positioner.goto` (`trajlapse/positioner.py`)

`goto(where)` is modelled by its event trace: when the target equals the
stored position no event is emitted (only timestamps and servo configs are
read); otherwise `with self.lock:` is entered, the cooperating locks are
acquired by `for lock in self.locks: lock.acquire()`, the servos are
commanded, the rig sleeps for the computed delay, both motors are powered
off, and the locks are released by `for lock in self.locks: lock.release()`
— the SAME iteration order — before `self.lock` is released.
Locks are identified by their index in `self.locks`.
-/

inductive LockEvent
  | acquireSelf
  | acquire (i : ℕ)
  | movePan (pan : ℚ)
  | moveTilt (tilt : ℚ)
  | sleep
  | motorsOff
  | release (i : ℕ)
  | releaseSelf
deriving DecidableEq, Repr

/-- The event trace of `Positioner.goto` over the cooperating locks
`[0, ..., n-1]`. -/
def goto_trace (locks : List ℕ) (current target : Position) : List LockEvent :=
  if target = current then []
  else
    [LockEvent.acquireSelf] ++ locks.map LockEvent.acquire ++
      [LockEvent.movePan target.pan, LockEvent.moveTilt target.tilt,
        LockEvent.sleep, LockEvent.motorsOff] ++
      locks.map LockEvent.release ++ [LockEvent.releaseSelf]

/-- C7 counterexample: with two cooperating locks, the releases after the
motor power-off occur in the list order `[0, 1]`, not in the reverse order
`[1, 0]` the claim requires. -/
theorem goto_trace_release_not_reversed :
    goto_trace [0, 1] ⟨0, 0⟩ ⟨10, 20⟩ ≠
      [LockEvent.acquireSelf, LockEvent.acquire 0, LockEvent.acquire 1,
        LockEvent.movePan 10, LockEvent.moveTilt 20, LockEvent.sleep,
        LockEvent.motorsOff, LockEvent.release 1, LockEvent.release 0,
        LockEvent.releaseSelf] := by
  have : goto_trace [0, 1] ⟨0, 0⟩ ⟨10, 20⟩ =
      [LockEvent.acquireSelf, LockEvent.acquire 0, LockEvent.acquire 1,
        LockEvent.movePan 10, LockEvent.moveTilt 20, LockEvent.sleep,
        LockEvent.motorsOff, LockEvent.release 0, LockEvent.release 1,
        LockEvent.releaseSelf] := by
    rw [goto_trace, if_neg (by simp)]
    rfl
  rw [this]
  simp

/-- C7 (amended): for every `goto` whose target differs from the stored
position, the cooperating locks are acquired in their list order before
the servos are commanded, and after the timed delay and motor power-off
they are released in that SAME list order (not reversed), before the
internal lock is given back. -/
theorem goto_trace_lock_order (locks : List ℕ) (current target : Position)
    (h : target ≠ current) :
    goto_trace locks current target =
      [LockEvent.acquireSelf] ++ locks.map LockEvent.acquire ++
        [LockEvent.movePan target.pan, LockEvent.moveTilt target.tilt,
          LockEvent.sleep, LockEvent.motorsOff] ++
        locks.map LockEvent.release ++ [LockEvent.releaseSelf] := by
  rw [goto_trace, if_neg h]

/-- C7 witness: the lock order theorem at two locks and a real move. -/
theorem goto_trace_lock_order_witness :
    goto_trace [0, 1] ⟨0, 0⟩ ⟨10, 20⟩ =
      [LockEvent.acquireSelf] ++ [0, 1].map LockEvent.acquire ++
        [LockEvent.movePan 10, LockEvent.moveTilt 20,
          LockEvent.sleep, LockEvent.motorsOff] ++
        [0, 1].map LockEvent.release ++ [LockEvent.releaseSelf] :=
  goto_trace_lock_order [0, 1] ⟨0, 0⟩ ⟨10, 20⟩ (by simp)

end Trajlapse
